import Mathlib

/-!
Verification of the ADGM corporate-agent compliance engine.

Shallow embedding of the Python sources:
  src/src/config.py               (rule tables)
  src/src/red_flag_detector.py    (red-flag detection and compliance scoring)
  src/src/document_classifier.py  (classification, process detection, checklist)
  src/src/document_processor.py   (annotated-document builder)

Documents are modelled as ordered lists of paragraph texts; Python strings
are Lean Strings, Python `in` on strings is substring containment, Python
list indices are Int (negative indices wrap from the end, as in Python).
Python str.lower / str.strip / str.replace / str.title / sep.join are
modelled by the char-level functions pyLower / pyStrip / pyReplace /
pyTitle / joinWith (ASCII-faithful, which covers every configured
pattern), and floats by exact rationals.
-/

/-- Scan helper for strContains: does `pat` occur in the char list? -/
def infixAux (pat : List Char) : List Char → Bool
  | [] => pat.isEmpty
  | c :: rest => pat.isPrefixOf (c :: rest) || infixAux pat rest

/-- Python `sub in s` substring test. -/
def strContains (s sub : String) : Bool :=
  infixAux sub.toList s.toList

/-- Python str.lower (ASCII-faithful model). -/
def pyLower (s : String) : String :=
  String.mk (s.toList.map Char.toLower)

/-- Python str.strip() with no arguments: remove leading and trailing
whitespace. -/
def pyStrip (s : String) : String :=
  String.mk (((s.toList.dropWhile Char.isWhitespace).reverse.dropWhile
      Char.isWhitespace).reverse)

/-- Python sep.join(parts). -/
def joinWith (sep : String) : List String → String
  | [] => ""
  | [x] => x
  | x :: y :: rest => x ++ sep ++ joinWith sep (y :: rest)

/-- Replacement scanner for pyReplace (fuel-bounded left-to-right
non-overlapping replacement; the fuel is always at least the text length,
so it never runs out). -/
def replaceAux (pat rep : List Char) : Nat → List Char → List Char
  | 0, l => l
  | _ + 1, [] => []
  | fuel + 1, c :: rest =>
    if !pat.isEmpty && pat.isPrefixOf (c :: rest) then
      rep ++ replaceAux pat rep fuel ((c :: rest).drop pat.length)
    else
      c :: replaceAux pat rep fuel rest

/-- Python s.replace(pat, rep) for non-empty pat. -/
def pyReplace (s pat rep : String) : String :=
  String.mk (replaceAux pat.toList rep.toList (s.toList.length + 1) s.toList)

/- ------------------------------------------------------------------ -/
/- config.py : rule tables                                            -/
/- ------------------------------------------------------------------ -/

/-- One entry of the RED_FLAGS table in config.py. -/
structure FlagConfig where
  patterns : List String
  correct : String
  severity : String
  description : String
deriving DecidableEq, Repr

/-- RED_FLAGS from config.py, in insertion (iteration) order. -/
def RED_FLAGS : List (String × FlagConfig) :=
  [ ("jurisdiction",
      ⟨["uae federal court", "dubai court", "sharjah court", "federal court"],
        "ADGM Courts", "High",
        "Jurisdiction must be ADGM Courts, not UAE federal or other emirate courts"⟩),
    ("governing_law",
      ⟨["uae law", "dubai law", "federal law"],
        "ADGM law", "High",
        "Governing law must reference ADGM law and regulations"⟩),
    ("registration_authority",
      ⟨["department of economic development", "ded", "chamber of commerce"],
        "ADGM Registration Authority", "High",
        "Registration authority must be ADGM Registration Authority"⟩),
    ("signature_requirements",
      ⟨["without signature", "unsigned", "no signature block"],
        "Proper signature blocks required", "Medium",
        "All documents must have proper signature blocks for authorized signatories"⟩) ]

/-- DOCUMENT_TYPE_MAPPINGS from config.py, in insertion (iteration) order. -/
def DOCUMENT_TYPE_MAPPINGS : List (String × List String) :=
  [ ("memorandum_of_association",
      ["memorandum of association", "memorandum_of_association", "moa", "memorandum"]),
    ("articles_of_association",
      ["articles of association", "articles_of_association", "aoa", "articles"]),
    ("board_resolution",
      ["board resolution", "board_resolution", "resolution", "board", "directors resolution"]),
    ("shareholder_resolution",
      ["shareholder resolution", "shareholders resolution", "member resolution"]),
    ("incorporation_form",
      ["incorporation", "application form", "registration form", "incorporation_form"]),
    ("ubo_declaration",
      ["ubo", "ubo_form", "ultimate beneficial owner", "beneficial owner", "declaration"]),
    ("register_members",
      ["register of members", "members register", "register of directors", "directors register"]),
    ("employment_contract",
      ["employment contract", "employment agreement", "contract of employment"]),
    ("data_protection_policy",
      ["data protection", "privacy policy", "data policy"]),
    ("annual_accounts",
      ["annual accounts", "financial statements", "accounts"]),
    ("company_checklist",
      ["checklist", "setup checklist", "incorporation checklist"]) ]

/-- PROCESS_CHECKLISTS from config.py: process name to its required_documents
list.  (The optional_documents lists are never read by any embedded
function, so they are not modelled.) -/
def PROCESS_CHECKLISTS : List (String × List String) :=
  [ ("Company Incorporation",
      ["Memorandum of Association", "Articles of Association",
       "Incorporation Application Form", "UBO Declaration Form",
       "Register of Members and Directors"]),
    ("Private Company Limited",
      ["Memorandum of Association", "Articles of Association", "Application Form",
       "Register of Members", "Register of Directors", "UBO Declaration"]),
    ("Employment Setup",
      ["Employment Contract", "Data Protection Policy"]),
    ("Annual Compliance",
      ["Annual Accounts", "Annual Return"]) ]

/- ------------------------------------------------------------------ -/
/- red_flag_detector.py                                               -/
/- ------------------------------------------------------------------ -/

/-- One issue dictionary produced by ADGMRedFlagDetector.  Keys that are
absent in some issue kinds (pattern_found, rag_guidance) are Options. -/
structure Issue where
  flag_type : String
  paragraph_index : Int
  paragraph_text : String
  issue : String
  pattern_found : Option String
  severity : String
  suggestion : String
  rag_guidance : Option String
  adgm_reference : String
deriving DecidableEq, Repr

/-- paragraphs_data built in analyze_document: (original index, text) for
every paragraph whose stripped text is non-empty. -/
def paragraphsData (doc : List String) : List (Nat × String) :=
  doc.enum.filter (fun p => decide (pyStrip p.2 ≠ ""))

/-- _get_relevant_adgm_reference. -/
def getRelevantAdgmReference (flagType : String) : String :=
  if flagType = "jurisdiction" then "ADGM Courts and Civil Procedures Rules"
  else if flagType = "governing_law" then "ADGM Companies Regulations"
  else if flagType = "registration_authority" then "ADGM Registration Authority Regulations"
  else if flagType = "signature_requirements" then
    "ADGM Companies Regulations - Execution of Documents"
  else "ADGM General Regulations"

/-- The paragraph_text stored in a pattern issue:
`text[:200] + "..." if len(text) > 200 else text`. -/
def truncExcerpt (s : String) : String :=
  if s.length > 200 then String.mk (s.toList.take 200) ++ "..." else s

/-- The issue dictionary built inside _detect_flag_in_paragraphs. -/
def mkPatternIssue (guidance : String → String → String) (flagType : String)
    (cfg : FlagConfig) (idx : Nat) (text : String) (pat : String) : Issue :=
  { flag_type := flagType
    paragraph_index := (idx : Int)
    paragraph_text := truncExcerpt text
    issue := cfg.description
    pattern_found := some pat
    severity := cfg.severity
    suggestion := "Replace with: " ++ cfg.correct
    rag_guidance := some (guidance "general" flagType)
    adgm_reference := getRelevantAdgmReference flagType }

/-- _detect_flag_in_paragraphs: outer loop over paragraphs, inner loop over
the flag's patterns; every substring hit emits one issue.  The RAG system
is modelled as the external function `guidance`. -/
def detectFlagInParagraphs (guidance : String → String → String)
    (pdata : List (Nat × String)) (flagType : String) (cfg : FlagConfig) : List Issue :=
  pdata.flatMap (fun pd =>
    (cfg.patterns.filter (fun pat => strContains (pyLower pd.2) pat)).map
      (mkPatternIssue guidance flagType cfg pd.1 pd.2))

/-- signature_patterns in _perform_additional_checks. -/
def signaturePatterns : List String :=
  ["signature", "signed by", "director signature", "authorized signatory"]

/-- `all_text = " ".join([p["text_lower"] for p in paragraphs_data])`. -/
def allTextLower (pdata : List (Nat × String)) : String :=
  joinWith " " (pdata.map (fun p => pyLower p.2))

/-- The missing-signature issue of _perform_additional_checks; `n` is
`len(paragraphs_data)`, so the stored index is `n - 1`. -/
def missingSignatureIssue (guidance : String → String → String)
    (docType : String) (n : Nat) : Issue :=
  { flag_type := "missing_signature"
    paragraph_index := (n : Int) - 1
    paragraph_text := "End of document"
    issue := "Document appears to be missing signature blocks"
    pattern_found := none
    severity := "Medium"
    suggestion := "Add proper signature blocks for authorized signatories"
    rag_guidance := some (guidance docType "signatures")
    adgm_reference := "ADGM Companies Regulations - Execution of Documents" }

/-- required_sections of _check_articles_specific_requirements. -/
def articlesRequiredSections : List (String × String) :=
  [ ("share capital", "Share capital structure must be defined"),
    ("directors", "Directors' powers and responsibilities must be specified"),
    ("meetings", "Meeting procedures must be outlined"),
    ("dividends", "Dividend distribution rules must be included") ]

/-- _check_articles_specific_requirements. -/
def checkArticlesSpecificRequirements (guidance : String → String → String)
    (pdata : List (Nat × String)) : List Issue :=
  (articlesRequiredSections.filter
      (fun sd => !(strContains (allTextLower pdata) sd.1))).map (fun sd =>
    { flag_type := "missing_section"
      paragraph_index := 0
      paragraph_text := "Document structure"
      issue := "Missing required section: " ++ sd.1
      pattern_found := none
      severity := "High"
      suggestion := sd.2
      rag_guidance := some (guidance "articles_of_association" sd.1)
      adgm_reference := "ADGM Companies Regulations - Articles of Association Requirements" })

/-- required_elements of _check_memorandum_specific_requirements. -/
def memorandumRequiredElements : List (String × String) :=
  [ ("company name", "Company name must be clearly stated"),
    ("registered office", "Registered office address must be specified"),
    ("objects", "Company objects and powers must be defined"),
    ("liability", "Member liability must be specified") ]

/-- _check_memorandum_specific_requirements. -/
def checkMemorandumSpecificRequirements (guidance : String → String → String)
    (pdata : List (Nat × String)) : List Issue :=
  (memorandumRequiredElements.filter
      (fun sd => !(strContains (allTextLower pdata) sd.1))).map (fun sd =>
    { flag_type := "missing_element"
      paragraph_index := 0
      paragraph_text := "Document content"
      issue := "Missing required element: " ++ sd.1
      pattern_found := none
      severity := "High"
      suggestion := sd.2
      rag_guidance := some (guidance "memorandum_of_association" sd.1)
      adgm_reference := "ADGM Companies Regulations - Memorandum of Association Requirements" })

/-- required_clauses of _check_employment_contract_requirements. -/
def employmentRequiredClauses : List (String × String) :=
  [ ("job description", "Job description and duties must be specified"),
    ("salary", "Salary and compensation must be defined"),
    ("working hours", "Working hours and schedule must be outlined"),
    ("notice period", "Notice periods for termination must be specified"),
    ("data protection", "Data protection and confidentiality clauses required") ]

/-- _check_employment_contract_requirements. -/
def checkEmploymentContractRequirements (guidance : String → String → String)
    (pdata : List (Nat × String)) : List Issue :=
  (employmentRequiredClauses.filter
      (fun sd => !(strContains (allTextLower pdata) sd.1))).map (fun sd =>
    { flag_type := "missing_clause"
      paragraph_index := 0
      paragraph_text := "Contract terms"
      issue := "Missing required clause: " ++ sd.1
      pattern_found := none
      severity := "Medium"
      suggestion := sd.2
      rag_guidance := some (guidance "employment_contract" sd.1)
      adgm_reference := "ADGM Employment Regulations 2019" })

/-- _perform_additional_checks: signature-block check first, then
document-type-specific checks. -/
def performAdditionalChecks (guidance : String → String → String)
    (pdata : List (Nat × String)) (docType : String) : List Issue :=
  (if signaturePatterns.any (fun pat => strContains (allTextLower pdata) pat)
   then []
   else [missingSignatureIssue guidance docType pdata.length])
  ++
  (if docType = "articles_of_association" then
    checkArticlesSpecificRequirements guidance pdata
  else if docType = "memorandum_of_association" then
    checkMemorandumSpecificRequirements guidance pdata
  else if docType = "employment_contract" then
    checkEmploymentContractRequirements guidance pdata
  else [])

/-- The issues_found list assembled by analyze_document: one pass per
RED_FLAGS entry (in table order), then the additional checks. -/
def analyzeIssues (guidance : String → String → String)
    (doc : List String) (docType : String) : List Issue :=
  (RED_FLAGS.map
      (fun fc => detectFlagInParagraphs guidance (paragraphsData doc) fc.1 fc.2)).flatten
  ++ performAdditionalChecks guidance (paragraphsData doc) docType

/-- The analysis dictionary of analyze_document / _calculate_compliance_metrics. -/
structure Analysis where
  document_type : String
  issues_found : List Issue
  compliance_score : Int
  total_flags : Nat
  critical_issues : Nat
  warnings : Nat
  compliance_status : Option String
deriving DecidableEq, Repr

/-- _get_compliance_status. -/
def getComplianceStatus (score : Int) : String :=
  if score ≥ 90 then "Compliant"
  else if score ≥ 70 then "Minor Issues"
  else if score ≥ 50 then "Major Issues"
  else "Non-Compliant"

/-- _calculate_compliance_metrics: integer score
`max(0, 100 - 20*countHigh - 10*countMedium)` plus categorised counts. -/
def calculateComplianceMetrics (analysis : Analysis) : Analysis :=
  let issues := analysis.issues_found
  let criticalCount := (issues.filter (fun i => decide (i.severity = "High"))).length
  let warningCount := (issues.filter (fun i => decide (i.severity = "Medium"))).length
  let score : Int := max 0 (100 - (criticalCount : Int) * 20 - (warningCount : Int) * 10)
  { analysis with
    compliance_score := score
    total_flags := issues.length
    critical_issues := criticalCount
    warnings := warningCount
    compliance_status := some (getComplianceStatus score) }

/-- analyze_document on an already-parsed document (the happy path of the
try block; the except path concerns unreadable files, not document
content). -/
def analyzeDocument (guidance : String → String → String)
    (doc : List String) (docType : String) : Analysis :=
  calculateComplianceMetrics
    { document_type := docType
      issues_found := analyzeIssues guidance doc docType
      compliance_score := 100
      total_flags := 0
      critical_issues := 0
      warnings := 0
      compliance_status := none }

/- ------------------------------------------------------------------ -/
/- document_classifier.py                                             -/
/- ------------------------------------------------------------------ -/

/-- A parsed DOCX file as the classifier reads it: paragraph texts plus
table-cell texts (row-major). -/
structure DocxFile where
  paragraphs : List String
  tableCells : List String
deriving DecidableEq, Repr

/-- extract_text_from_docx: join all paragraph texts and table-cell texts
with spaces and lower-case; any extraction exception is caught and yields
"" (modelled by the `none` input). -/
def extractTextFromDocx (file : Option DocxFile) : String :=
  match file with
  | none => ""
  | some d => pyLower (joinWith " " (d.paragraphs ++ d.tableCells))

/-- Word character for the `\b` boundaries of re.findall in
classify_document_type (ASCII model of Python's \w). -/
def isWordChar (c : Char) : Bool :=
  c.isAlphanum || c == '_'

/-- Left `\b` boundary: position 0 or preceded by a non-word char (valid
for keywords that start with a word character, as all configured keywords
do). -/
def boundaryBefore : Option Char → Bool
  | none => true
  | some c => !isWordChar c

/-- Right `\b` boundary: end of text or followed by a non-word char (valid
for keywords that end with a word character, as all configured keywords
do). -/
def boundaryAfter : List Char → Bool
  | [] => true
  | c :: _ => !isWordChar c

/-- Fuel-bounded scanner counting the non-overlapping whole-word
occurrences that `re.findall(r'\b' + re.escape(kw) + r'\b', text)` finds;
the fuel is always at least the text length, so it never runs out. -/
def countOccAux (kw : List Char) : Nat → Option Char → List Char → Nat
  | 0, _, _ => 0
  | _ + 1, _, [] => 0
  | fuel + 1, prev, c :: rest =>
    if !kw.isEmpty && kw.isPrefixOf (c :: rest) && boundaryBefore prev
        && boundaryAfter ((c :: rest).drop kw.length) then
      1 + countOccAux kw fuel kw.getLast? ((c :: rest).drop kw.length)
    else
      countOccAux kw fuel (some c) rest

/-- Number of whole-word occurrences of `kw` in `text`. -/
def countWordOccurrences (text kw : String) : Nat :=
  countOccAux kw.toList (text.toList.length + 1) none text.toList

/-- `len(keyword.replace(" ", ""))` used to score filename keyword hits. -/
def keywordScore (kw : String) : Nat :=
  (pyReplace kw " " "").length

/-- Filename phase of classify_document_type: for each document type the
best (longest, spaces stripped) keyword occurring in the lower-cased
filename, as (type, score, best_match). -/
def filenameScores (filename : String) : List (String × Nat × String) :=
  DOCUMENT_TYPE_MAPPINGS.map (fun m =>
    (m.1, m.2.foldl (fun acc kw =>
      if strContains (pyLower filename) kw ∧ keywordScore kw > acc.1 then
        (keywordScore kw, kw)
      else acc) ((0 : Nat), "")))

/-- One step of Python `max(d, key=...)` over (type, score, match) triples:
keep the first entry attaining the maximal score. -/
def pickStep3 (acc : Option (String × Nat × String)) (e : String × Nat × String) :
    Option (String × Nat × String) :=
  match acc with
  | none => some e
  | some b => if e.2.1 > b.2.1 then some e else some b

/-- Python `max(scores, key=lambda x: scores[x][0])`: the first entry with
the maximal score (dicts iterate in insertion order). -/
def pickFirstMax3 (l : List (String × Nat × String)) : Option (String × Nat × String) :=
  l.foldl pickStep3 none

/-- One step of Python `max(d, key=d.get)` over (name, score) pairs. -/
def pickStep2 (acc : Option (String × Nat)) (e : String × Nat) : Option (String × Nat) :=
  match acc with
  | none => some e
  | some b => if e.2 > b.2 then some e else some b

/-- Python `max(scores, key=scores.get)`: first entry with maximal score. -/
def pickFirstMax2 (l : List (String × Nat)) : Option (String × Nat) :=
  l.foldl pickStep2 none

/-- The hard-coded fallback phrase cascade at the end of
classify_document_type. -/
def contentFallback (text : String) : String :=
  if strContains text "articles of association" ∨ strContains text "company constitution" then
    "articles_of_association"
  else if strContains text "memorandum of association" ∨ strContains text "company objects" then
    "memorandum_of_association"
  else if strContains text "board of directors" ∧ strContains text "resolution" then
    "board_resolution"
  else if strContains text "shareholders" ∧ strContains text "resolution" then
    "shareholder_resolution"
  else if strContains text "ultimate beneficial owner" ∨ strContains text "ubo" then
    "ubo_declaration"
  else if strContains text "employment" ∧ (strContains text "contract" ∨ strContains text "agreement") then
    "employment_contract"
  else "unknown"

/-- Content phase of classify_document_type: empty text yields "unknown";
otherwise whole-word keyword counting, then the fallback cascade. -/
def classifyByContent (file : Option DocxFile) : String :=
  if extractTextFromDocx file = "" then "unknown"
  else
    match pickFirstMax2 (DOCUMENT_TYPE_MAPPINGS.map (fun m =>
        (m.1, (m.2.map (fun kw => countWordOccurrences (extractTextFromDocx file) kw)).sum))) with
    | some best => if best.2 > 0 then best.1 else contentFallback (extractTextFromDocx file)
    | none => contentFallback (extractTextFromDocx file)

/-- classify_document_type: filename phase first; with no filename keyword
hit, fall back to the content phase.  Total — no path raises. -/
def classifyDocumentType (file : Option DocxFile) (filename : String) : String :=
  match pickFirstMax3 (filenameScores filename) with
  | some best => if best.2.1 > 0 then best.1 else classifyByContent file
  | none => classifyByContent file

/-- No keyword of any document type occurs in the lower-cased filename. -/
def filenameMatchesNothing (filename : String) : Bool :=
  (filenameScores filename).all (fun e => decide (e.2.1 = 0))

/-- Char scanner for pyTitle: Python str.title() capitalises a letter that
follows a non-letter and lower-cases the rest (ASCII model). -/
def pyTitleAux : Bool → List Char → List Char
  | _, [] => []
  | prevCased, c :: rest =>
    if c.isAlpha then
      (if prevCased then c.toLower else c.toUpper) :: pyTitleAux true rest
    else
      c :: pyTitleAux false rest

/-- Python str.title(). -/
def pyTitle (s : String) : String :=
  String.mk (pyTitleAux false s.toList)

/-- _convert_doc_type_to_readable: fixed conversion map with a
replace-underscores-and-title-case default. -/
def convertDocTypeToReadable (docType : String) : String :=
  if docType = "articles_of_association" then "Articles of Association"
  else if docType = "memorandum_of_association" then "Memorandum of Association"
  else if docType = "board_resolution" then "Board Resolution"
  else if docType = "shareholder_resolution" then "Shareholder Resolution"
  else if docType = "incorporation_form" then "Incorporation Application Form"
  else if docType = "ubo_declaration" then "UBO Declaration Form"
  else if docType = "register_members" then "Register of Members and Directors"
  else if docType = "employment_contract" then "Employment Contract"
  else if docType = "data_protection_policy" then "Data Protection Policy"
  else if docType = "annual_accounts" then "Annual Accounts"
  else pyTitle (pyReplace docType "_" " ")

/-- _documents_match: case-insensitive exact match, then the fixed fuzzy
anchor-substring rules, tried in source order. -/
def documentsMatch (doc1 doc2 : String) : Bool :=
  if pyLower doc1 = pyLower doc2 then true
  else if strContains (pyLower doc1) "articles" ∧ strContains (pyLower doc2) "articles" then true
  else if strContains (pyLower doc1) "memorandum" ∧ strContains (pyLower doc2) "memorandum" then true
  else if strContains (pyLower doc1) "resolution" ∧ strContains (pyLower doc2) "resolution" then true
  else if strContains (pyLower doc1) "ubo"
      ∧ (strContains (pyLower doc2) "ubo" ∨ strContains (pyLower doc2) "beneficial owner") then true
  else if strContains (pyLower doc1) "register" ∧ strContains (pyLower doc2) "register" then true
  else if strContains (pyLower doc1) "incorporation"
      ∧ (strContains (pyLower doc2) "incorporation" ∨ strContains (pyLower doc2) "application") then true
  else false

/-- detect_process_type: score every process by how many uploaded document
types fuzzily satisfy one of its required documents; first maximal process
wins if its score is positive. -/
def detectProcessType (documentTypes : List String) : String :=
  match pickFirstMax2 (PROCESS_CHECKLISTS.map (fun pc =>
      (pc.1, documentTypes.foldl (fun score dt =>
        if pc.2.any (fun rd => documentsMatch (convertDocTypeToReadable dt) rd) then
          score + 1
        else score) 0))) with
  | some best => if best.2 > 0 then best.1 else "Unknown Process"
  | none => "Unknown Process"

/-- Dictionary lookup `self.process_checklists[process_type]` guarded by
`process_type not in self.process_checklists`. -/
def lookupRequired (process : String) : Option (List String) :=
  (PROCESS_CHECKLISTS.find? (fun pc => decide (pc.1 = process))).map (fun pc => pc.2)

/-- Does some uploaded document type (converted to readable form) fuzzily
match the required label `r`?  This is the inner loop of
generate_checklist_report. -/
def matchesUploaded (docTypes : List String) (r : String) : Bool :=
  (docTypes.map convertDocTypeToReadable).any (fun u => documentsMatch u r)

/-- Python round-half-to-even on a rational. -/
def pyRoundHalfEven (q : ℚ) : ℤ :=
  if q - Int.floor q > 1 / 2 then Int.floor q + 1
  else if q - Int.floor q < 1 / 2 then Int.floor q
  else if Int.floor q % 2 = 0 then Int.floor q else Int.floor q + 1

/-- Python round(x, 1) (exact-rational model of the float computation). -/
def pyRound1 (q : ℚ) : ℚ :=
  (pyRoundHalfEven (q * 10) : ℚ) / 10

/-- The report dictionary of generate_checklist_report.  The unknown-process
branch omits the required_documents and found_documents keys, modelled with
`none`. -/
structure ChecklistReport where
  process : String
  status : String
  uploaded_documents : Nat
  required_documents : Option Nat
  found_documents : Option (List String)
  missing_documents : List String
  completeness_percentage : ℚ
deriving DecidableEq, Repr

/-- generate_checklist_report: partition the required list by fuzzy match
against the uploaded types; completeness is 100*found/required (100 for an
empty required list), rounded to one decimal. -/
def generateChecklistReport (docTypes : List String) (processType : String) :
    ChecklistReport :=
  match lookupRequired processType with
  | none =>
      { process := processType
        status := "Unknown process type"
        uploaded_documents := docTypes.length
        required_documents := none
        found_documents := none
        missing_documents := []
        completeness_percentage := 0 }
  | some requiredDocs =>
      { process := processType
        status :=
          if (requiredDocs.filter (fun r => !matchesUploaded docTypes r)).isEmpty
          then "Complete" else "Incomplete"
        uploaded_documents := docTypes.length
        required_documents := some requiredDocs.length
        found_documents := some (requiredDocs.filter (fun r => matchesUploaded docTypes r))
        missing_documents := requiredDocs.filter (fun r => !matchesUploaded docTypes r)
        completeness_percentage :=
          pyRound1
            (if requiredDocs.isEmpty then 100
             else ((requiredDocs.filter (fun r => matchesUploaded docTypes r)).length : ℚ)
                    / (requiredDocs.length : ℚ) * 100) }

/- ------------------------------------------------------------------ -/
/- document_processor.py : annotated-document builder                  -/
/- ------------------------------------------------------------------ -/

/-- One paragraph of the (annotated) output document, with the run-level
formatting the builder applies: highlight colour name, font colour (hex),
font size (EMU), bold, italic. -/
structure RPara where
  text : String
  highlight : Option String
  color : Option String
  size : Option Nat
  bold : Bool
  italic : Bool
deriving DecidableEq, Repr

/-- A paragraph carrying plain text and no explicit formatting. -/
def mkPlain (t : String) : RPara :=
  ⟨t, none, none, none, false, false⟩

/-- The "=" * 80 separator line. -/
def sepLine80 : String := String.mk (List.replicate 80 '=')

/-- The "-" * 50 line ending each comment. -/
def dashLine50 : String := String.mk (List.replicate 50 '-')

/-- The summary paragraph text written by _add_review_header. -/
def headerSummaryText (currentDate : String) (analysis : Analysis) : String :=
  "\nDocument Type: " ++ analysis.document_type
  ++ "\nCompliance Score: " ++ toString analysis.compliance_score
  ++ "/100\nTotal Issues Found: " ++ toString analysis.total_flags
  ++ "\nCritical Issues: " ++ toString analysis.critical_issues
  ++ "\nWarnings: " ++ toString analysis.warnings
  ++ "\nStatus: " ++ analysis.compliance_status.getD "Unknown"
  ++ "\n\nReview Date: " ++ currentDate
  ++ "\nGenerated by: ADGM Compliance Assistant\n\n"

/-- _add_review_header: insert the styled header paragraph at body position
0, then append the summary paragraph, a separator and a blank paragraph at
the end.  (datetime.now() is the external input `currentDate`.) -/
def addReviewHeader (currentDate : String) (analysis : Analysis)
    (paras : List RPara) : List RPara :=
  ⟨"=== ADGM COMPLIANCE REVIEW ===", none, some "FF0000", some 240000, true, false⟩
    :: paras
  ++ [⟨headerSummaryText currentDate analysis, none, none, some 200000, false, false⟩,
      mkPlain sepLine80, mkPlain ""]

/-- color_map of _highlight_paragraph (WD_COLOR_INDEX names, YELLOW
default). -/
def highlightColorMap (severity : String) : String :=
  if severity = "High" then "RED"
  else if severity = "Medium" then "YELLOW"
  else if severity = "Low" then "BRIGHT_GREEN"
  else "YELLOW"

/-- Font colour applied to a comment run by _add_comment_paragraph. -/
def commentColor (severity : String) : String :=
  if severity = "High" then "DC143C"
  else if severity = "Medium" then "FF8C00"
  else "4682B4"

/-- _format_comment. -/
def formatComment (issue : Issue) : String :=
  "\n🚨 COMPLIANCE ISSUE - " ++ issue.severity ++ " Severity\n\nIssue: "
  ++ issue.issue
  ++ "\nFound Pattern: " ++ issue.pattern_found.getD "N/A"
  ++ "\nSuggestion: " ++ issue.suggestion
  ++ "\nADGM Reference: " ++ issue.adgm_reference
  ++ "\n\n"
  ++ (match issue.rag_guidance with
      | some g => if g = "" then "" else "Detailed Guidance:\n" ++ g ++ "\n"
      | none => "")
  ++ dashLine50 ++ "\n"

/-- Python sequence indexing: non-negative indices are absolute, negative
indices wrap from the end, anything else raises IndexError (none). -/
def pyIndex (len : Nat) (i : Int) : Option Nat :=
  if 0 ≤ i ∧ i < (len : Int) then some i.toNat
  else if 0 ≤ i + (len : Int) ∧ i < 0 then some (i + (len : Int)).toNat
  else none

/-- Replace the paragraph at a (checked) position. -/
def modifyAt : List RPara → Nat → (RPara → RPara) → List RPara
  | [], _, _ => []
  | p :: rest, 0, f => f p :: rest
  | p :: rest, n + 1, f => p :: modifyAt rest n f

/-- The styled comment paragraph _add_comment_paragraph builds (italic,
9pt, severity-coloured). -/
def commentPara (commentText severity : String) : RPara :=
  ⟨commentText, none, some (commentColor severity), some 180000, false, true⟩

/-- _add_comment_paragraph: append the styled comment paragraph, then — if
`insert_index < len(doc.paragraphs) - 1` evaluated on the grown document —
move it to body position insert_index (the lxml insert; every reachable
insert_index is non-negative, cf. annotateIssueStep). -/
def addCommentParagraph (d : List RPara) (insertIndex : Int)
    (commentText severity : String) : List RPara :=
  if insertIndex < ((d ++ [commentPara commentText severity]).length : Int) - 1 then
    d.take insertIndex.toNat
      ++ [commentPara commentText severity]
      ++ d.drop insertIndex.toNat
  else
    d ++ [commentPara commentText severity]

/-- The per-issue body of the loop in _create_reviewed_document: skip
issues whose index is not below the current paragraph count, otherwise
highlight `doc.paragraphs[paragraph_index]` and insert the comment at
`paragraph_index + 1`.  Both positions are resolved against the CURRENT
document, which already contains the header and earlier comments. -/
def annotateIssueStep (d : List RPara) (issue : Issue) : Option (List RPara) :=
  if issue.paragraph_index < (d.length : Int) then
    match pyIndex d.length issue.paragraph_index with
    | some idx =>
        some (addCommentParagraph
          (modifyAt d idx
            (fun p => { p with highlight := some (highlightColorMap issue.severity) }))
          (issue.paragraph_index + 1) (formatComment issue) issue.severity)
    | none => none
  else some d

/-- The issue loop of _create_reviewed_document (none = an IndexError that
the enclosing try swallows). -/
def annotateIssues (issues : List Issue) (d : List RPara) : Option (List RPara) :=
  issues.foldlM annotateIssueStep d

/-- First-occurrence deduplication standing in for Python's
`list(set(...))` (whose iteration order is implementation-defined). -/
def dedupFirst (l : List String) : List String :=
  l.foldl (fun acc x => if acc.contains x then acc else acc ++ [x]) []

/-- The per-category lines of _add_compliance_summary. -/
def issueCategoriesText (issues : List Issue) : String :=
  if issues.isEmpty then ""
  else
    "Issue Categories Found:\n"
    ++ String.join ((dedupFirst (issues.map (fun i => i.flag_type))).map (fun ft =>
        "- " ++ pyTitle (pyReplace ft "_" " ") ++ ": "
          ++ toString (issues.filter (fun i => decide (i.flag_type = ft))).length
          ++ " issue(s)\n"))

/-- The closing summary paragraph text of _add_compliance_summary. -/
def summaryText2 (currentDate : String) (analysis : Analysis) : String :=
  "\nOverall Compliance Score: " ++ toString analysis.compliance_score
  ++ "/100\nCompliance Status: " ++ analysis.compliance_status.getD "Unknown"
  ++ "\n\nIssues Breakdown:\n- Critical Issues (High): " ++ toString analysis.critical_issues
  ++ "\n- Warnings (Medium): " ++ toString analysis.warnings
  ++ "\n- Total Issues: " ++ toString analysis.total_flags
  ++ "\n\n"
  ++ issueCategoriesText analysis.issues_found
  ++ "\nNext Steps:\n1. Address all critical (High severity) issues immediately\n"
  ++ "2. Review and resolve warning (Medium severity) issues\n"
  ++ "3. Ensure all required documents are uploaded for the process\n"
  ++ "4. Re-submit for review after making corrections\n\nReview completed on: "
  ++ currentDate ++ "\n"

/-- _add_compliance_summary: append a blank, a separator, the styled title
and the summary paragraph. -/
def addComplianceSummary (currentDate : String) (analysis : Analysis)
    (d : List RPara) : List RPara :=
  d ++ [mkPlain "", mkPlain sepLine80,
        ⟨"COMPLIANCE REVIEW SUMMARY", none, some "00008B", some 220000, true, false⟩,
        ⟨summaryText2 currentDate analysis, none, none, some 200000, false, false⟩]

/-- _create_reviewed_document on a parsed document: header, issue loop,
closing summary.  An empty document makes `doc.paragraphs[0]` in
_add_review_header raise IndexError; the function's try/except then
returns "" — modelled as none. -/
def createReviewedDocument (currentDate : String) (analysis : Analysis)
    (origParas : List String) : Option (List RPara) :=
  match origParas with
  | [] => none
  | _ :: _ =>
    (annotateIssues analysis.issues_found
        (addReviewHeader currentDate analysis (origParas.map mkPlain))).map
      (addComplianceSummary currentDate analysis)

/-- The concrete two-paragraph document used to evaluate the builder. -/
def c1Doc : List String := ["uae law clause", "payment terms"]

/-- The detector's full analysis of c1Doc (no RAG guidance, a document type
with no type-specific checks). -/
def c1Analysis : Analysis := analyzeDocument (fun _ _ => "") c1Doc "other"

/-- The annotated copy the builder produces for c1Doc. -/
def c1Result : List RPara :=
  (createReviewedDocument "2025-01-01" c1Analysis c1Doc).getD []

/- ------------------------------------------------------------------ -/
/- Statement-support definitions                                      -/
/- ------------------------------------------------------------------ -/

/-- Number of issues of a given severity. -/
def countSeverity (s : String) (issues : List Issue) : Nat :=
  (issues.filter (fun i => decide (i.severity = s))).length

/-- Erase the enrichment guidance from an issue (for comparing detector
outputs across different guidance collaborators). -/
def stripGuidance (i : Issue) : Issue :=
  { i with rag_guidance := none }

/-- Position of a flag kind in the RED_FLAGS table. -/
def flagPos (ft : String) : Nat :=
  (RED_FLAGS.map Prod.fst).findIdx (fun x => decide (x = ft))

/-- The ordering relation asserted by the spec for pattern-scan issues:
paragraph order first, flag-table order second. -/
def claimPatternOrderB (a b : Issue) : Bool :=
  decide (a.paragraph_index < b.paragraph_index)
  || (decide (a.paragraph_index = b.paragraph_index)
      && decide (flagPos a.flag_type ≤ flagPos b.flag_type))

/-- Adjacent-pairs check that a list is ordered by claimPatternOrderB
(a list sorted as the spec asserts satisfies this check). -/
def claimOrderedB : List Issue → Bool
  | [] => true
  | [_] => true
  | a :: b :: rest => claimPatternOrderB a b && claimOrderedB (b :: rest)

/-- A 207-character paragraph (200 repetitions of a plus a governing-law
pattern) used to exercise the excerpt truncation. -/
def longText : String :=
  String.mk (List.replicate 200 'a') ++ "uae law"

/-- The checklist-report partition/completeness property asserted by C3,
stated for the required list `req` of `processType`. -/
def checklistPartitionClaim (docTypes : List String) (processType : String)
    (req : List String) : Prop :=
  (generateChecklistReport docTypes processType).found_documents
      = some (req.filter (fun r => matchesUploaded docTypes r))
  ∧ (generateChecklistReport docTypes processType).missing_documents
      = req.filter (fun r => !matchesUploaded docTypes r)
  ∧ List.Perm
      (req.filter (fun r => matchesUploaded docTypes r)
        ++ req.filter (fun r => !matchesUploaded docTypes r)) req
  ∧ (req.all (fun r =>
        (req.filter (fun r2 => matchesUploaded docTypes r2)).contains r
        || (req.filter (fun r2 => !matchesUploaded docTypes r2)).contains r)) = true
  ∧ ((req.filter (fun r => matchesUploaded docTypes r)).all (fun r =>
        !((req.filter (fun r2 => !matchesUploaded docTypes r2)).contains r))) = true
  ∧ (generateChecklistReport docTypes processType).completeness_percentage
      = (if req.length = 0 then 100
         else pyRound1
           ((100 * ((req.filter (fun r => matchesUploaded docTypes r)).length : ℚ))
             / (req.length : ℚ)))

/- ------------------------------------------------------------------ -/
/- Theorems                                                           -/
/- ------------------------------------------------------------------ -/

/-- C2 (confirmed): the compliance score is
max(0, 100 − 20·countHigh − 10·countMedium); appending a Low-severity
issue never changes the score; the status bands are exactly ≥90
Compliant, [70,90) Minor Issues, [50,70) Major Issues, <50 Non-Compliant;
and the stored status is the banding function applied to the stored
score.  Pure integer arithmetic throughout. -/
theorem compliance_score_formula_and_bands :
    (∀ a : Analysis,
      (calculateComplianceMetrics a).compliance_score
        = max 0 (100 - 20 * (countSeverity "High" a.issues_found : Int)
                     - 10 * (countSeverity "Medium" a.issues_found : Int)))
    ∧ (∀ (a : Analysis) (ft : String) (pidx : Int) (pt dsc sg ar : String)
        (pf rg : Option String),
        (calculateComplianceMetrics
            { a with issues_found :=
                a.issues_found ++ [⟨ft, pidx, pt, dsc, pf, "Low", sg, rg, ar⟩] }).compliance_score
          = (calculateComplianceMetrics a).compliance_score)
    ∧ (∀ s : Int,
        (getComplianceStatus s = "Compliant" ↔ 90 ≤ s)
        ∧ (getComplianceStatus s = "Minor Issues" ↔ 70 ≤ s ∧ s < 90)
        ∧ (getComplianceStatus s = "Major Issues" ↔ 50 ≤ s ∧ s < 70)
        ∧ (getComplianceStatus s = "Non-Compliant" ↔ s < 50))
    ∧ (∀ a : Analysis,
        (calculateComplianceMetrics a).compliance_status
          = some (getComplianceStatus ((calculateComplianceMetrics a).compliance_score))) := by
  refine ⟨?_, ?_, ?_, ?_⟩
  · intro a
    simp only [calculateComplianceMetrics, countSeverity]
    congr 1
    ring
  · intro a ft pidx pt dsc sg ar pf rg
    simp +decide [calculateComplianceMetrics, List.filter_append]
  · intro s
    by_cases h1 : (90 : Int) ≤ s <;> by_cases h2 : (70 : Int) ≤ s <;>
      by_cases h3 : (50 : Int) ≤ s <;>
      simp [getComplianceStatus, h1, h2, h3] <;> omega
  · intro a
    rfl

/-- C5 (confirmed): the compliance score always lies in [0, 100], and
appending any issue to the issue list never increases the score. -/
theorem compliance_score_bounds_and_monotone :
    ∀ a : Analysis,
      (0 ≤ (calculateComplianceMetrics a).compliance_score
        ∧ (calculateComplianceMetrics a).compliance_score ≤ 100)
      ∧ ∀ i : Issue,
          (calculateComplianceMetrics
              { a with issues_found := a.issues_found ++ [i] }).compliance_score
            ≤ (calculateComplianceMetrics a).compliance_score := by
  intro a
  refine ⟨⟨le_max_left 0 _, ?_⟩, ?_⟩
  · refine max_le (by norm_num) ?_
    omega
  · intro i
    simp only [calculateComplianceMetrics, List.filter_append, List.length_append]
    refine max_le_max (le_refl 0) ?_
    push_cast
    omega

/-- C10 (confirmed): the fuzzy document-label match is reflexive (every
label matches itself through the case-insensitive exact-equality rule) but
not symmetric: a label containing "ubo" matches one containing
"beneficial owner", while the converse match fails. -/
theorem documents_match_reflexive_and_asymmetric :
    (∀ a : String, documentsMatch a a = true)
    ∧ documentsMatch "UBO Declaration Form" "Beneficial Owner Form" = true
    ∧ documentsMatch "Beneficial Owner Form" "UBO Declaration Form" = false :=
  ⟨fun a => by simp [documentsMatch], by decide, by decide⟩

lemma pickStep3_zero (acc : Option (String × Nat × String)) (e : String × Nat × String)
    (hacc : ∀ b, acc = some b → b.2.1 = 0) (he : e.2.1 = 0) :
    ∀ b, pickStep3 acc e = some b → b.2.1 = 0 := by
  intro b hb
  cases acc with
  | none =>
    simp only [pickStep3, Option.some.injEq] at hb
    subst hb
    exact he
  | some c =>
    have hc : c.2.1 = 0 := hacc c rfl
    simp only [pickStep3] at hb
    split at hb <;> simp only [Option.some.injEq] at hb <;> subst hb
    · exact he
    · exact hc

lemma pickFirstMax3_allZero :
    ∀ (l : List (String × Nat × String)) (acc : Option (String × Nat × String)),
      l.all (fun e => decide (e.2.1 = 0)) = true →
      (∀ b, acc = some b → b.2.1 = 0) →
      ∀ b, l.foldl pickStep3 acc = some b → b.2.1 = 0 := by
  intro l
  induction l with
  | nil => intro acc _ hacc b hb; exact hacc b hb
  | cons e rest ih =>
    intro acc hall hacc b hb
    simp only [List.all_cons, Bool.and_eq_true, decide_eq_true_eq] at hall
    exact ih (pickStep3 acc e)
      (by simpa using hall.2) (pickStep3_zero acc e hacc hall.1) b hb

/-- C8 (corrected): when the filename matches no classification keyword
and the document content is unreadable or empty, classification returns
"unknown" (and, being a total function, never fails).  The original claim
— that EVERY unreadable-content input yields "unknown" — is refuted by
classify_unreadable_filename_counterexample: a matching filename
short-circuits before content is ever read. -/
theorem classify_unreadable_yields_unknown :
    ∀ (file : Option DocxFile) (filename : String),
      filenameMatchesNothing filename = true →
      extractTextFromDocx file = "" →
      classifyDocumentType file filename = "unknown" := by
  intro file filename h1 h2
  have hcontent : classifyByContent file = "unknown" := by
    unfold classifyByContent
    rw [if_pos h2]
  unfold classifyDocumentType
  cases hp : pickFirstMax3 (filenameScores filename) with
  | none => exact hcontent
  | some best =>
    have hz : best.2.1 = 0 := by
      refine pickFirstMax3_allZero (filenameScores filename) none ?_ ?_ best hp
      · simpa [filenameMatchesNothing] using h1
      · intro b hb; cases hb
    simp only [hz]
    rw [if_neg (by omega)]
    exact hcontent

/-- Witness for classify_unreadable_yields_unknown at the concrete input
(no file, filename "zzz.docx"). -/
theorem classify_unreadable_yields_unknown_witness :
    filenameMatchesNothing "zzz.docx" = true
    ∧ extractTextFromDocx none = ""
    ∧ classifyDocumentType none "zzz.docx" = "unknown" :=
  ⟨by decide, rfl, classify_unreadable_yields_unknown none "zzz.docx" (by decide) rfl⟩

/-- C8 counterexample: a document whose content is unreadable (extraction
yields "") but whose filename contains the keyword "moa" is classified as
memorandum_of_association, not "unknown" — refuting the claim as stated. -/
theorem classify_unreadable_filename_counterexample :
    classifyDocumentType none "moa.docx" = "memorandum_of_association"
    ∧ extractTextFromDocx none = ""
    ∧ ("memorandum_of_association" : String) ≠ "unknown" := by
  decide

/-- C4 counterexample: on the document ["uae law", "dubai court"] the
pattern-scan issue list is [(jurisdiction, paragraph 1),
(governing_law, paragraph 0)] — flag-table order first — so it is NOT
ordered primarily by paragraph index as the claim states. -/
theorem detector_ordering_counterexample :
    claimOrderedB
        ((RED_FLAGS.map (fun fc =>
            detectFlagInParagraphs (fun _ _ => "")
              (paragraphsData ["uae law", "dubai court"]) fc.1 fc.2)).flatten) = false
    ∧ ((RED_FLAGS.map (fun fc =>
            detectFlagInParagraphs (fun _ _ => "")
              (paragraphsData ["uae law", "dubai court"]) fc.1 fc.2)).flatten).map
          (fun i => (i.flag_type, i.paragraph_index))
        = [("jurisdiction", 1), ("governing_law", 0)] := by
  decide

lemma paragraphsData_pairwise (doc : List String) :
    (paragraphsData doc).Pairwise (fun x y => x.1 < y.1) := by
  unfold paragraphsData
  refine List.Pairwise.filter _ ?_
  have h : (doc.enum.map Prod.fst).Pairwise (fun a b => a < b) := by
    rw [List.enum_map_fst]
    exact List.pairwise_lt_range _
  exact List.pairwise_map.mp h

lemma pairwise_le_const {l : List Issue} {v : Int}
    (h : ∀ a ∈ l, a.paragraph_index = v) :
    l.Pairwise (fun a b => a.paragraph_index ≤ b.paragraph_index) := by
  induction l with
  | nil => exact List.Pairwise.nil
  | cons x xs ih =>
    refine List.Pairwise.cons ?_ (ih ?_)
    · intro b hb
      rw [h x (List.mem_cons_self x xs), h b (List.mem_cons_of_mem x hb)]
    · intro a ha
      exact h a (List.mem_cons_of_mem x ha)

lemma mem_detectFlagInParagraphs {a : Issue} {g : String → String → String}
    {pdata : List (Nat × String)} {ft : String} {cfg : FlagConfig}
    (h : a ∈ detectFlagInParagraphs g pdata ft cfg) :
    a.flag_type = ft ∧ ∃ pd ∈ pdata, a.paragraph_index = (pd.1 : Int) := by
  unfold detectFlagInParagraphs at h
  simp only [List.mem_flatMap, List.mem_map, List.mem_filter] at h
  obtain ⟨pd, hpd, pat, _, rfl⟩ := h
  exact ⟨rfl, pd, hpd, rfl⟩

lemma detectFlag_pairwise (g : String → String → String)
    (pdata : List (Nat × String)) (ft : String) (cfg : FlagConfig)
    (h : pdata.Pairwise (fun x y => x.1 < y.1)) :
    (detectFlagInParagraphs g pdata ft cfg).Pairwise
      (fun a b => a.paragraph_index ≤ b.paragraph_index) := by
  induction pdata with
  | nil => simp [detectFlagInParagraphs]
  | cons pd rest ih =>
    rcases List.pairwise_cons.mp h with ⟨hlt, hrest⟩
    have hsplit :
        detectFlagInParagraphs g (pd :: rest) ft cfg
          = (cfg.patterns.filter (fun pat => strContains (pyLower pd.2) pat)).map
              (mkPatternIssue g ft cfg pd.1 pd.2)
            ++ detectFlagInParagraphs g rest ft cfg := by
      simp [detectFlagInParagraphs]
    rw [hsplit, List.pairwise_append]
    refine ⟨?_, ih hrest, ?_⟩
    · refine pairwise_le_const (v := (pd.1 : Int)) ?_
      intro a ha
      simp only [List.mem_map, List.mem_filter] at ha
      obtain ⟨pat, _, rfl⟩ := ha
      rfl
    · intro a ha b hb
      simp only [List.mem_map, List.mem_filter] at ha
      obtain ⟨pat, _, rfl⟩ := ha
      obtain ⟨-, pd2, hpd2, hidx⟩ := mem_detectFlagInParagraphs hb
      have : pd.1 < pd2.1 := hlt pd2 hpd2
      show ((pd.1 : Nat) : Int) ≤ b.paragraph_index
      rw [hidx]
      exact_mod_cast Nat.le_of_lt this

/-- C4 (corrected, amended): the detector's output is the flag-table
passes concatenated in table order, followed by the additional checks
(the signature-block issue, if emitted, before the type-specific checks
in their declared order); within each single flag pass the issues are in
paragraph order (and in pattern-table order within one paragraph).  The
original claim put paragraph order first across ALL pattern-scan issues,
which detector_ordering_counterexample refutes. -/
theorem detector_output_ordering :
    ∀ (g : String → String → String) (doc : List String) (docType : String),
      analyzeIssues g doc docType
        = (RED_FLAGS.map (fun fc =>
            detectFlagInParagraphs g (paragraphsData doc) fc.1 fc.2)).flatten
          ++ performAdditionalChecks g (paragraphsData doc) docType
      ∧ performAdditionalChecks g (paragraphsData doc) docType
        = (if signaturePatterns.any (fun pat =>
              strContains (allTextLower (paragraphsData doc)) pat) then []
           else [missingSignatureIssue g docType (paragraphsData doc).length])
          ++ (if docType = "articles_of_association" then
                checkArticlesSpecificRequirements g (paragraphsData doc)
              else if docType = "memorandum_of_association" then
                checkMemorandumSpecificRequirements g (paragraphsData doc)
              else if docType = "employment_contract" then
                checkEmploymentContractRequirements g (paragraphsData doc)
              else [])
      ∧ ∀ (ft : String) (cfg : FlagConfig),
          (detectFlagInParagraphs g (paragraphsData doc) ft cfg).Pairwise
            (fun a b => a.paragraph_index ≤ b.paragraph_index) :=
  fun g doc docType =>
    ⟨rfl, rfl, fun ft cfg =>
      detectFlag_pairwise g (paragraphsData doc) ft cfg (paragraphsData_pairwise doc)⟩

lemma mem_checkArticles {a : Issue} {g : String → String → String}
    {pdata : List (Nat × String)}
    (h : a ∈ checkArticlesSpecificRequirements g pdata) :
    a.flag_type = "missing_section" ∧ a.paragraph_text = "Document structure" := by
  simp only [checkArticlesSpecificRequirements, List.mem_map, List.mem_filter] at h
  obtain ⟨sd, _, rfl⟩ := h
  exact ⟨rfl, rfl⟩

lemma mem_checkMemorandum {a : Issue} {g : String → String → String}
    {pdata : List (Nat × String)}
    (h : a ∈ checkMemorandumSpecificRequirements g pdata) :
    a.flag_type = "missing_element" ∧ a.paragraph_text = "Document content" := by
  simp only [checkMemorandumSpecificRequirements, List.mem_map, List.mem_filter] at h
  obtain ⟨sd, _, rfl⟩ := h
  exact ⟨rfl, rfl⟩

lemma mem_checkEmployment {a : Issue} {g : String → String → String}
    {pdata : List (Nat × String)}
    (h : a ∈ checkEmploymentContractRequirements g pdata) :
    a.flag_type = "missing_clause" ∧ a.paragraph_text = "Contract terms" := by
  simp only [checkEmploymentContractRequirements, List.mem_map, List.mem_filter] at h
  obtain ⟨sd, _, rfl⟩ := h
  exact ⟨rfl, rfl⟩

lemma filter_missing_sig_flatten (g : String → String → String)
    (doc : List String) :
    ((RED_FLAGS.map (fun fc =>
        detectFlagInParagraphs g (paragraphsData doc) fc.1 fc.2)).flatten).filter
      (fun i => decide (i.flag_type = "missing_signature")) = [] := by
  rw [List.filter_eq_nil_iff]
  intro a ha
  simp only [List.mem_flatten, List.mem_map] at ha
  obtain ⟨seg, ⟨fc, hfc, rfl⟩, hmem⟩ := ha
  have hft := (mem_detectFlagInParagraphs hmem).1
  simp only [decide_eq_true_eq]
  intro hc
  rw [hft] at hc
  simp only [RED_FLAGS, List.mem_cons, List.not_mem_nil, or_false] at hfc
  rcases hfc with rfl | rfl | rfl | rfl <;> exact absurd hc (by decide)

lemma filter_missing_sig_typechecks (g : String → String → String)
    (pdata : List (Nat × String)) (docType : String) :
    ((if docType = "articles_of_association" then
        checkArticlesSpecificRequirements g pdata
      else if docType = "memorandum_of_association" then
        checkMemorandumSpecificRequirements g pdata
      else if docType = "employment_contract" then
        checkEmploymentContractRequirements g pdata
      else []).filter (fun i => decide (i.flag_type = "missing_signature"))) = [] := by
  split
  · rw [List.filter_eq_nil_iff]
    intro a ha
    simp only [decide_eq_true_eq]
    intro hc
    exact absurd ((mem_checkArticles ha).1.symm.trans hc) (by decide)
  · split
    · rw [List.filter_eq_nil_iff]
      intro a ha
      simp only [decide_eq_true_eq]
      intro hc
      exact absurd ((mem_checkMemorandum ha).1.symm.trans hc) (by decide)
    · split
      · rw [List.filter_eq_nil_iff]
        intro a ha
        simp only [decide_eq_true_eq]
        intro hc
        exact absurd ((mem_checkEmployment ha).1.symm.trans hc) (by decide)
      · rfl

/-- C6 (corrected, amended): for every document and type, when none of the
fixed signature keywords occurs in the concatenated lower-cased non-empty
paragraph text, the detector emits exactly one missing-signature issue, of
Medium severity, anchored at index (number of NON-EMPTY paragraphs − 1);
when a keyword occurs, no such issue is emitted.  The claim's anchor — the
document's last paragraph index — is refuted by
missing_signature_index_counterexample. -/
theorem missing_signature_issue_spec :
    ∀ (g : String → String → String) (doc : List String) (docType : String),
      ((analyzeIssues g doc docType).filter
          (fun i => decide (i.flag_type = "missing_signature")))
        = (if signaturePatterns.any (fun pat =>
              strContains (allTextLower (paragraphsData doc)) pat) then []
           else [missingSignatureIssue g docType (paragraphsData doc).length])
      ∧ (missingSignatureIssue g docType (paragraphsData doc).length).paragraph_index
          = ((paragraphsData doc).length : Int) - 1
      ∧ (missingSignatureIssue g docType (paragraphsData doc).length).severity
          = "Medium" := by
  intro g doc docType
  refine ⟨?_, rfl, rfl⟩
  unfold analyzeIssues performAdditionalChecks
  rw [List.filter_append, filter_missing_sig_flatten, List.filter_append,
    filter_missing_sig_typechecks, List.nil_append, List.append_nil]
  split
  · rfl
  · rfl

/-- C6 counterexample: on the document ["", "hello"] (no signature
keywords anywhere) the emitted missing-signature issue is anchored at
paragraph index 0, while the document's last paragraph index is 1. -/
theorem missing_signature_index_counterexample :
    ((analyzeIssues (fun _ _ => "") ["", "hello"] "other").filter
        (fun i => decide (i.flag_type = "missing_signature"))).map
      (fun i => i.paragraph_index) = [0]
    ∧ ((0 : Int) ≠ ((["", "hello"] : List String).length : Int) - 1) := by
  decide

lemma truncExcerpt_length_le (s : String) : (truncExcerpt s).length ≤ 203 := by
  unfold truncExcerpt
  split
  · rw [String.length_append]
    have h1 : (String.mk (s.toList.take 200)).length = (s.toList.take 200).length := rfl
    have h3 : ("..." : String).length = 3 := rfl
    rw [h1, h3, List.length_take]
    have := min_le_left 200 s.toList.length
    omega
  · next h => omega

/-- C7 (corrected, amended): every issue's stored excerpt is at most 203
characters long (the original text when it has at most 200 characters,
otherwise its 200-character prefix plus a 3-character ellipsis).  The
claim's bound of 200 is refuted by excerpt_length_counterexample. -/
theorem excerpt_length_bounded :
    ∀ (g : String → String → String) (doc : List String) (docType : String),
      (analyzeIssues g doc docType).all
        (fun i => decide (i.paragraph_text.length ≤ 203)) = true := by
  intro g doc docType
  rw [List.all_eq_true]
  intro a ha
  simp only [decide_eq_true_eq]
  unfold analyzeIssues at ha
  rw [List.mem_append] at ha
  rcases ha with ha | ha
  · simp only [List.mem_flatten, List.mem_map] at ha
    obtain ⟨seg, ⟨fc, _, rfl⟩, hmem⟩ := ha
    unfold detectFlagInParagraphs at hmem
    simp only [List.mem_flatMap, List.mem_map, List.mem_filter] at hmem
    obtain ⟨pd, _, pat, _, rfl⟩ := hmem
    exact truncExcerpt_length_le pd.2
  · unfold performAdditionalChecks at ha
    rw [List.mem_append] at ha
    rcases ha with ha | ha
    · split at ha
      · exact absurd ha (List.not_mem_nil a)
      · rw [List.mem_singleton] at ha
        subst ha
        show ("End of document" : String).length ≤ 203
        decide
    · split at ha
      · rw [(mem_checkArticles ha).2]; decide
      · split at ha
        · rw [(mem_checkMemorandum ha).2]; decide
        · split at ha
          · rw [(mem_checkEmployment ha).2]; decide
          · exact absurd ha (List.not_mem_nil a)

set_option maxRecDepth 40000 in
/-- C7 counterexample: a 207-character flagged paragraph produces an issue
whose stored excerpt has 203 characters, exceeding the claimed 200-character
bound (the signature issue's fixed 15-character text follows it). -/
theorem excerpt_length_counterexample :
    ((analyzeIssues (fun _ _ => "") [longText] "other").map
        (fun i => i.paragraph_text.length)) = [203, 15]
    ∧ ¬((203 : Nat) ≤ 200) := by
  decide

lemma map_strip_detect (g1 g2 : String → String → String)
    (pdata : List (Nat × String)) (ft : String) (cfg : FlagConfig) :
    (detectFlagInParagraphs g1 pdata ft cfg).map stripGuidance
      = (detectFlagInParagraphs g2 pdata ft cfg).map stripGuidance := by
  induction pdata with
  | nil => rfl
  | cons pd rest ih =>
    simp only [detectFlagInParagraphs, List.flatMap_cons, List.map_append,
      List.map_map] at ih ⊢
    rw [ih]
    have hfun :
        stripGuidance ∘ mkPatternIssue g1 ft cfg pd.1 pd.2
          = stripGuidance ∘ mkPatternIssue g2 ft cfg pd.1 pd.2 := by
      funext pat
      rfl
    rw [hfun]

lemma map_strip_additional (g1 g2 : String → String → String)
    (pdata : List (Nat × String)) (docType : String) :
    (performAdditionalChecks g1 pdata docType).map stripGuidance
      = (performAdditionalChecks g2 pdata docType).map stripGuidance := by
  unfold performAdditionalChecks
  rw [List.map_append, List.map_append]
  congr 1
  · split <;> rfl
  · split
    · simp only [checkArticlesSpecificRequirements, List.map_map]
      congr 1
    · split
      · simp only [checkMemorandumSpecificRequirements, List.map_map]
        congr 1
      · split
        · simp only [checkEmploymentContractRequirements, List.map_map]
          congr 1
        · rfl

lemma map_strip_analyzeIssues (g1 g2 : String → String → String)
    (doc : List String) (docType : String) :
    (analyzeIssues g1 doc docType).map stripGuidance
      = (analyzeIssues g2 doc docType).map stripGuidance := by
  unfold analyzeIssues
  rw [List.map_append, List.map_append,
    map_strip_additional g1 g2 (paragraphsData doc) docType]
  congr 1
  rw [List.map_flatten, List.map_flatten, List.map_map, List.map_map]
  congr 1
  apply List.map_congr_left
  intro fc _
  exact map_strip_detect g1 g2 (paragraphsData doc) fc.1 fc.2

lemma countSeverity_strip (s : String) (l : List Issue) :
    countSeverity s (l.map stripGuidance) = countSeverity s l := by
  unfold countSeverity
  rw [← List.countP_eq_length_filter, ← List.countP_eq_length_filter,
    List.countP_map]
  rfl

/-- C9 (confirmed): the enrichment guidance never influences scoring — for
any two guidance collaborators, the detector's issue lists agree except in
the guidance field, and the compliance score and status are identical. -/
theorem guidance_noninterference :
    ∀ (g1 g2 : String → String → String) (doc : List String) (docType : String),
      (analyzeIssues g1 doc docType).map stripGuidance
          = (analyzeIssues g2 doc docType).map stripGuidance
      ∧ (analyzeDocument g1 doc docType).compliance_score
          = (analyzeDocument g2 doc docType).compliance_score
      ∧ (analyzeDocument g1 doc docType).compliance_status
          = (analyzeDocument g2 doc docType).compliance_status := by
  intro g1 g2 doc docType
  have hmap := map_strip_analyzeIssues g1 g2 doc docType
  have hcs : ∀ s, countSeverity s (analyzeIssues g1 doc docType)
      = countSeverity s (analyzeIssues g2 doc docType) := by
    intro s
    rw [← countSeverity_strip s (analyzeIssues g1 doc docType), hmap,
      countSeverity_strip]
  have hscore : (analyzeDocument g1 doc docType).compliance_score
      = (analyzeDocument g2 doc docType).compliance_score := by
    show max 0 (100 - (countSeverity "High" (analyzeIssues g1 doc docType) : Int) * 20
          - (countSeverity "Medium" (analyzeIssues g1 doc docType) : Int) * 10)
        = max 0 (100 - (countSeverity "High" (analyzeIssues g2 doc docType) : Int) * 20
          - (countSeverity "Medium" (analyzeIssues g2 doc docType) : Int) * 10)
    rw [hcs "High", hcs "Medium"]
  exact ⟨hmap, hscore,
    congrArg (fun z => some (getComplianceStatus z)) hscore⟩

/-- C3 (confirmed): for a known process, the checklist report partitions
the required list exactly into found and missing (filters by the fuzzy
match predicate), their concatenation is a permutation of the required
list, every required label lands in at least one and never both, and the
completeness percentage is round(100*m/k, 1) with m = found count (100
for an empty required list). -/
theorem checklist_report_partitions :
    ∀ (docTypes : List String) (processType : String) (req : List String),
      lookupRequired processType = some req →
      checklistPartitionClaim docTypes processType req := by
  intro docTypes processType req h
  unfold checklistPartitionClaim generateChecklistReport
  rw [h]
  refine ⟨rfl, rfl, List.filter_append_perm _ req, ?_, ?_, ?_⟩
  · rw [List.all_eq_true]
    intro r hr
    rw [Bool.or_eq_true]
    by_cases hm : matchesUploaded docTypes r = true
    · left
      refine List.elem_eq_true_of_mem ?_
      rw [List.mem_filter]
      exact ⟨hr, hm⟩
    · right
      refine List.elem_eq_true_of_mem ?_
      rw [List.mem_filter]
      refine ⟨hr, ?_⟩
      simp only [Bool.not_eq_true] at hm
      simp [hm]
  · rw [List.all_eq_true]
    intro r hr
    rw [List.mem_filter] at hr
    cases hcon : (req.filter (fun r2 => !matchesUploaded docTypes r2)).contains r with
    | false => rfl
    | true =>
      exfalso
      have hmem := List.elem_iff.mp hcon
      rw [List.mem_filter] at hmem
      have hneg := hmem.2
      rw [hr.2] at hneg
      simp at hneg
  · show pyRound1
        (if req.isEmpty = true then (100 : ℚ)
         else ((req.filter (fun r => matchesUploaded docTypes r)).length : ℚ)
                / (req.length : ℚ) * 100)
      = (if req.length = 0 then (100 : ℚ)
         else pyRound1
           ((100 * ((req.filter (fun r => matchesUploaded docTypes r)).length : ℚ))
             / (req.length : ℚ)))
    by_cases hreq : req.isEmpty = true
    · have hlen : req.length = 0 := by
        rwa [List.isEmpty_iff_length_eq_zero] at hreq
      rw [if_pos hreq, if_pos hlen]
      norm_num [pyRound1, pyRoundHalfEven]
    · have hlen : ¬ req.length = 0 := by
        intro hc
        exact hreq (by rwa [List.isEmpty_iff_length_eq_zero])
      rw [if_neg hreq, if_neg hlen]
      congr 1
      ring

/-- Witness for checklist_report_partitions at the concrete input: process
"Employment Setup", one uploaded employment contract. -/
theorem checklist_report_partitions_witness :
    lookupRequired "Employment Setup"
        = some ["Employment Contract", "Data Protection Policy"]
    ∧ checklistPartitionClaim ["employment_contract"] "Employment Setup"
        ["Employment Contract", "Data Protection Policy"] :=
  ⟨by decide, checklist_report_partitions _ _ _ (by decide)⟩

/-- C1 (code_bug): evaluating the builder end-to-end on the two-paragraph
document c1Doc (issues: governing_law at paragraph 0, missing_signature at
paragraph 1): the review header shifts every original paragraph down by
one, but the issue loop still resolves positions with the original
indices, so the RED highlight lands on the header (position 0), the
YELLOW highlight lands on the first comment (position 1), the flagged
paragraph (now position 3) is unhighlighted, and the paragraph immediately
after it is the other original paragraph, not its comment.  The comment
paragraphs sit at positions 1 and 2, before the flagged text. -/
theorem builder_misplaces_comments :
    c1Result.map (fun p => p.highlight)
      = [some "RED", some "YELLOW", none, none, none, none,
         none, none, none, none, none, none]
    ∧ (c1Result.map (fun p => p.text)).get? 3 = some "uae law clause"
    ∧ (c1Result.map (fun p => p.text)).get? 4 = some "payment terms" := by
  decide
